import Mathlib

/-!
Verification of the segmented-button component
(src/src/stories/segmented-button.stories.tsx).

The component consists of a group container (`SegmentedButton`) that owns a
selected value (either supplied by a controlling owner through the `value`
prop, or held locally, initialized from `defaultValue`, which defaults to
`""`), and item controls (`SegmentedButtonItem`) that read a shared context
to compute their active and disabled states and request selection changes
on click.

We embed the state logic shallowly: optional props become `Option`,
the JavaScript truthiness of possibly-`undefined` boolean props is made
explicit with `Option.getD false`, the external `onValueChange` callback is
modelled by a presence flag plus the list of calls made to it, and the
context accessor that throws becomes an `Except`.
-/

namespace SegmentedButtonSpec

/-- The display variant of the group (`"primary" | "secondary"` in the source). -/
inductive Variant where
  | primary
  | secondary
deriving DecidableEq, Repr

/-- The props of `SegmentedButton` that matter for its state behaviour.
`defaultValue`, `value`, `onValueChange` and `disabled` are all optional in
the source; the callback itself is modelled by the flag `hasOnValueChange`
together with the list of calls recorded in the results below. -/
structure SegmentedButtonProps where
  defaultValue : Option String := none
  value : Option String := none
  hasOnValueChange : Bool := false
  disabled : Option Bool := none
  variant : Variant := Variant.primary
deriving DecidableEq, Repr

/-- Destructuring default `defaultValue = ""`: the initial value of the
`uncontrolledValue` state is the `defaultValue` prop, or `""` when absent. -/
def initialUncontrolledValue (p : SegmentedButtonProps) : String :=
  p.defaultValue.getD ""

/-- `const isControlled = controlledValue !== undefined`. -/
def isControlled (p : SegmentedButtonProps) : Bool :=
  p.value.isSome

/-- `const selectedValue = isControlled ? controlledValue : uncontrolledValue`. -/
def selectedValue (p : SegmentedButtonProps) (uncontrolledValue : String) : String :=
  match p.value with
  | some v => v
  | none => uncontrolledValue

/-- The observable outcome of one run of the container's `handleValueChange`:
the new `uncontrolledValue` state and the calls made to the external
`onValueChange` callback. -/
structure ChangeResult where
  uncontrolledValue : String
  externalCalls : List String
deriving DecidableEq, Repr

/-- `handleValueChange`: when not controlled, `setUncontrolledValue(newValue)`;
then `onValueChange?.(newValue)` (a call is made exactly when the callback
is present). -/
def handleValueChange (p : SegmentedButtonProps) (st : String) (newValue : String) :
    ChangeResult :=
  { uncontrolledValue := if isControlled p then st else newValue,
    externalCalls := if p.hasOnValueChange then [newValue] else [] }

/-- The value of `SegmentedButtonContext` provided to children: the current
selected value, the display variant, and the group-level disabled flag.
(The `onValueChange` field of the context is the container's
`handleValueChange`; it is modelled by `clickSegment` below.) -/
structure SegmentedButtonContextType where
  selectedValue : String
  variant : Variant
  disabled : Option Bool
deriving DecidableEq, Repr

/-- The context the container provides, given its props and its current
`uncontrolledValue` state. -/
def provideContext (p : SegmentedButtonProps) (st : String) :
    SegmentedButtonContextType :=
  { selectedValue := selectedValue p st,
    variant := p.variant,
    disabled := p.disabled }

/-- `useSegmentedButtonContext`: reads the ambient context; throws when the
item is rendered outside a `SegmentedButton` (no provider), otherwise
returns the context. -/
def useSegmentedButtonContext (ctx : Option SegmentedButtonContextType) :
    Except String SegmentedButtonContextType :=
  match ctx with
  | none => Except.error "SegmentedButtonItem must be used within SegmentedButton"
  | some c => Except.ok c

/-- Props of `SegmentedButtonItem`: its identifier, optional label and
optional disabled flag. -/
structure SegmentedButtonItemProps where
  value : String
  label : Option String := none
  disabled : Option Bool := none
deriving DecidableEq, Repr

/-- `const isSelected = selectedValue === value`. -/
def itemIsSelected (ctx : SegmentedButtonContextType)
    (item : SegmentedButtonItemProps) : Bool :=
  ctx.selectedValue == item.value

/-- `const isDisabled = disabled || groupDisabled`, as a truth value:
an absent (`undefined`) flag is falsy. -/
def itemIsDisabled (ctx : SegmentedButtonContextType)
    (item : SegmentedButtonItemProps) : Bool :=
  item.disabled.getD false || ctx.disabled.getD false

/-- The attributes the item exposes on its rendered `<button>`. -/
structure RenderedItem where
  role : String
  ariaChecked : Bool
  ariaDisabled : Bool
  dataState : String
  disabled : Bool
deriving DecidableEq, Repr

/-- The rendered output of `SegmentedButtonItem` given the shared context. -/
def renderItem (ctx : SegmentedButtonContextType)
    (item : SegmentedButtonItemProps) : RenderedItem :=
  { role := "radio",
    ariaChecked := itemIsSelected ctx item,
    ariaDisabled := itemIsDisabled ctx item,
    dataState := if itemIsSelected ctx item then "active" else "inactive",
    disabled := itemIsDisabled ctx item }

/-- The item's `handleClick`: when not effectively disabled, invokes the
shared change function with the item's own identifier (returned as
`some value`); otherwise does nothing (`none`). -/
def handleClick (ctx : SegmentedButtonContextType)
    (item : SegmentedButtonItemProps) : Option String :=
  if itemIsDisabled ctx item then none else some item.value

/-- The observable outcome of a click on a segment, from the whole group's
point of view: the (possibly updated) `uncontrolledValue` state, whether
the shared change function was invoked at all, and the calls made to the
external `onValueChange` callback. -/
structure ClickResult where
  uncontrolledValue : String
  changeInvoked : Bool
  externalCalls : List String
deriving DecidableEq, Repr

/-- One user click on a segment: the item's `handleClick` decides whether
the shared change function runs; when it does, the container's
`handleValueChange` processes the item's identifier. -/
def clickSegment (p : SegmentedButtonProps) (st : String)
    (item : SegmentedButtonItemProps) : ClickResult :=
  match handleClick (provideContext p st) item with
  | none =>
    { uncontrolledValue := st, changeInvoked := false, externalCalls := [] }
  | some v =>
    let r := handleValueChange p st v
    { uncontrolledValue := r.uncontrolledValue,
      changeInvoked := true,
      externalCalls := r.externalCalls }

/-- Rendering the whole group: each item rendered against the shared context. -/
def renderGroup (ctx : SegmentedButtonContextType)
    (items : List SegmentedButtonItemProps) : List RenderedItem :=
  items.map (renderItem ctx)

/-- How many rendered segments report active. -/
def activeCount (ctx : SegmentedButtonContextType)
    (items : List SegmentedButtonItemProps) : Nat :=
  (renderGroup ctx items).countP (fun r => r.ariaChecked)

end SegmentedButtonSpec

namespace SegmentedButtonSpec

/-- In a list of items with pairwise-distinct identifiers, at most one
matches any given selected value. -/
theorem countP_matching_le_one (s : String) (items : List SegmentedButtonItemProps)
    (h : (items.map (fun it => it.value)).Nodup) :
    items.countP (fun it => s == it.value) ≤ 1 := by
  induction items with
  | nil => simp
  | cons a l ih =>
    simp only [List.map_cons, List.nodup_cons] at h
    rw [List.countP_cons]
    by_cases hs : s = a.value
    · have hz : l.countP (fun it => s == it.value) = 0 := by
        rw [List.countP_eq_zero]
        intro b hb
        simp only [beq_iff_eq, hs]
        intro hab
        apply h.1
        rw [hab]
        exact List.mem_map_of_mem (fun it => it.value) hb
      rw [hz]
      simp [hs]
    · have hfalse : (s == a.value) = false := by
        simp [hs]
      simp only [hfalse, if_false, Nat.add_zero]
      exact ih h.2

/-- When a group is not controlled, its `value` prop is absent. -/
theorem value_eq_none_of_not_controlled (p : SegmentedButtonProps)
    (hc : isControlled p = false) : p.value = none := by
  unfold isControlled at hc
  cases hcase : p.value with
  | none => rfl
  | some v => rw [hcase] at hc; simp at hc

/-- The number of active rendered segments is the number of items whose
identifier equals the selected value. -/
theorem activeCount_eq_countP (ctx : SegmentedButtonContextType)
    (items : List SegmentedButtonItemProps) :
    activeCount ctx items = items.countP (fun it => ctx.selectedValue == it.value) := by
  unfold activeCount renderGroup
  rw [List.countP_map]
  rfl

/-- An item's rendered checked attribute is true exactly when its identifier
equals the shared selected value. -/
theorem ariaChecked_iff (ctx : SegmentedButtonContextType)
    (item : SegmentedButtonItemProps) :
    (renderItem ctx item).ariaChecked = true ↔ item.value = ctx.selectedValue := by
  simp only [renderItem, itemIsSelected, beq_iff_eq]
  constructor
  · intro h
    exact h.symm
  · intro h
    exact h.symm

/-- C1: whenever the items of a group have pairwise-distinct identifiers,
at most one rendered segment reports active; a segment is active exactly
when its identifier equals the group's selected identifier; and when no
identifier matches the selected identifier, no segment is active. -/
theorem c1_at_most_one_active (ctx : SegmentedButtonContextType)
    (items : List SegmentedButtonItemProps)
    (hnodup : (items.map (fun it => it.value)).Nodup) :
    activeCount ctx items ≤ 1
    ∧ (∀ it ∈ items, ((renderItem ctx it).ariaChecked = true ↔ it.value = ctx.selectedValue))
    ∧ ((∀ it ∈ items, it.value ≠ ctx.selectedValue) → activeCount ctx items = 0) := by
  refine ⟨?_, ?_, ?_⟩
  · rw [activeCount_eq_countP]
    exact countP_matching_le_one ctx.selectedValue items hnodup
  · intro it _
    exact ariaChecked_iff ctx it
  · intro hnone
    rw [activeCount_eq_countP, List.countP_eq_zero]
    intro it hit
    simp only [beq_iff_eq]
    intro hv
    exact hnone it hit hv.symm

/-- Witness for C1 on the concrete group {day, week, month, year} with
selected value "week": exactly the distinctness hypothesis and the stated
conclusions at that input. -/
theorem c1_at_most_one_active_witness :
    activeCount
      { selectedValue := "week", variant := Variant.primary, disabled := none }
      [{ value := "day" }, { value := "week" }, { value := "month" }, { value := "year" }] ≤ 1 := by
  exact (c1_at_most_one_active
    { selectedValue := "week", variant := Variant.primary, disabled := none }
    [{ value := "day" }, { value := "week" }, { value := "month" }, { value := "year" }]
    (by decide)).1

/-- C2: in a controlled group, clicking a non-disabled segment leaves the
internal state and the displayed selected value unchanged, but calls the
external notification function (when supplied) with the segment's
identifier. -/
theorem c2_controlled_click (p : SegmentedButtonProps) (st : String)
    (item : SegmentedButtonItemProps)
    (hc : isControlled p = true)
    (hnd : itemIsDisabled (provideContext p st) item = false)
    (hn : p.hasOnValueChange = true) :
    (clickSegment p st item).uncontrolledValue = st
    ∧ selectedValue p (clickSegment p st item).uncontrolledValue = selectedValue p st
    ∧ (clickSegment p st item).externalCalls = [item.value] := by
  unfold clickSegment handleClick
  rw [hnd]
  simp only [handleValueChange, hc, hn, if_true]
  exact ⟨rfl, rfl, rfl⟩

/-- Witness for C2: a controlled group with value "week" and the segment
"month"; clicking "month" keeps the displayed value "week" and notifies
with "month". -/
theorem c2_controlled_click_witness :
    (clickSegment { value := some "week", hasOnValueChange := true } "day"
      { value := "month" }).uncontrolledValue = "day"
    ∧ selectedValue { value := some "week", hasOnValueChange := true }
        (clickSegment { value := some "week", hasOnValueChange := true } "day"
          { value := "month" }).uncontrolledValue
      = selectedValue { value := some "week", hasOnValueChange := true } "day"
    ∧ (clickSegment { value := some "week", hasOnValueChange := true } "day"
        { value := "month" }).externalCalls = ["month"] :=
  c2_controlled_click { value := some "week", hasOnValueChange := true } "day"
    { value := "month" } (by decide) (by decide) (by decide)

/-- C3: in an uncontrolled group, clicking a non-disabled segment updates
the local selected value to that segment's identifier, and that segment
becomes the visibly active one. -/
theorem c3_uncontrolled_click (p : SegmentedButtonProps) (st : String)
    (item : SegmentedButtonItemProps)
    (hc : isControlled p = false)
    (hnd : itemIsDisabled (provideContext p st) item = false) :
    (clickSegment p st item).uncontrolledValue = item.value
    ∧ selectedValue p (clickSegment p st item).uncontrolledValue = item.value
    ∧ itemIsSelected (provideContext p (clickSegment p st item).uncontrolledValue) item
      = true := by
  have hv : p.value = none := value_eq_none_of_not_controlled p hc
  have h1 : (clickSegment p st item).uncontrolledValue = item.value := by
    unfold clickSegment handleClick
    rw [hnd]
    simp [handleValueChange, isControlled, hv]
  refine ⟨h1, ?_, ?_⟩
  · rw [h1]
    simp [selectedValue, hv]
  · rw [h1]
    simp [itemIsSelected, provideContext, selectedValue, hv]

/-- Witness for C3: group with segments {small, medium, large}, current
value "medium"; clicking "large" yields active "large". -/
theorem c3_uncontrolled_click_witness :
    (clickSegment { defaultValue := some "medium" } "medium"
      { value := "large" }).uncontrolledValue = "large"
    ∧ selectedValue { defaultValue := some "medium" }
        (clickSegment { defaultValue := some "medium" } "medium"
          { value := "large" }).uncontrolledValue = "large"
    ∧ itemIsSelected
        (provideContext { defaultValue := some "medium" }
          (clickSegment { defaultValue := some "medium" } "medium"
            { value := "large" }).uncontrolledValue)
        { value := "large" } = true :=
  c3_uncontrolled_click { defaultValue := some "medium" } "medium"
    { value := "large" } (by decide) (by decide)

/-- C4: when a segment is effectively disabled (its own flag or the group
flag), a click changes nothing: the shared change function is not invoked,
the state is unchanged, and the external notifier is not called. -/
theorem c4_disabled_click_no_change (p : SegmentedButtonProps) (st : String)
    (item : SegmentedButtonItemProps)
    (hd : itemIsDisabled (provideContext p st) item = true) :
    clickSegment p st item
      = { uncontrolledValue := st, changeInvoked := false, externalCalls := [] } := by
  unfold clickSegment handleClick
  rw [hd]
  simp

/-- Witness for C4: clicking an individually disabled segment of an
uncontrolled group with a notifier leaves everything untouched. -/
theorem c4_disabled_click_no_change_witness :
    clickSegment { hasOnValueChange := true } "week"
      { value := "month", disabled := some true }
      = { uncontrolledValue := "week", changeInvoked := false, externalCalls := [] } :=
  c4_disabled_click_no_change { hasOnValueChange := true } "week"
    { value := "month", disabled := some true } (by decide)

/-- C5: the shared-context accessor errors exactly when no context is
present (item rendered outside a group container), with the documented
message, and succeeds with the context itself otherwise. -/
theorem c5_context_error :
    useSegmentedButtonContext none
      = Except.error "SegmentedButtonItem must be used within SegmentedButton"
    ∧ (∀ ctx : SegmentedButtonContextType,
        useSegmentedButtonContext (some ctx) = Except.ok ctx) :=
  ⟨rfl, fun _ => rfl⟩

/-- C6: on a child-reported change, the local value is updated to the
reported identifier exactly when the group is not externally controlled,
and the change is forwarded to the external notifier whenever that
function is present, in both the controlled and the uncontrolled case. -/
theorem c6_handleValueChange (p : SegmentedButtonProps) (st : String)
    (newValue : String) :
    (isControlled p = false →
      (handleValueChange p st newValue).uncontrolledValue = newValue)
    ∧ (isControlled p = true →
      (handleValueChange p st newValue).uncontrolledValue = st)
    ∧ (p.hasOnValueChange = true →
      (handleValueChange p st newValue).externalCalls = [newValue]) := by
  refine ⟨?_, ?_, ?_⟩
  · intro hc
    simp [handleValueChange, hc]
  · intro hc
    simp [handleValueChange, hc]
  · intro hn
    simp [handleValueChange, hn]

/-- Witness for C6: an uncontrolled group with a notifier; a reported
change to "b" updates the local value to "b" and forwards ["b"]. -/
theorem c6_handleValueChange_witness :
    (handleValueChange { hasOnValueChange := true } "a" "b").uncontrolledValue = "b"
    ∧ (handleValueChange { hasOnValueChange := true } "a" "b").externalCalls = ["b"] :=
  ⟨(c6_handleValueChange { hasOnValueChange := true } "a" "b").1 (by decide),
   (c6_handleValueChange { hasOnValueChange := true } "a" "b").2.2 (by decide)⟩

/-- C7: an item's computed active state is exactly "identifier equals the
shared selected value" and its effectively-disabled state is exactly "own
flag or group flag"; both are exposed on the rendered button. -/
theorem c7_item_computed_states (ctx : SegmentedButtonContextType)
    (item : SegmentedButtonItemProps) :
    ((renderItem ctx item).ariaChecked = true ↔ item.value = ctx.selectedValue)
    ∧ (renderItem ctx item).disabled
        = (item.disabled.getD false || ctx.disabled.getD false)
    ∧ (renderItem ctx item).ariaDisabled
        = (item.disabled.getD false || ctx.disabled.getD false) :=
  ⟨ariaChecked_iff ctx item, rfl, rfl⟩

/-- Witness for C7 at a concrete context and item, discharging the
biconditional by evaluation. -/
theorem c7_item_computed_states_witness :
    ((renderItem { selectedValue := "a", variant := Variant.primary, disabled := some true }
        { value := "a", disabled := some false }).ariaChecked = true
      ↔ ("a" : String) = "a")
    ∧ (renderItem { selectedValue := "a", variant := Variant.primary, disabled := some true }
        { value := "a", disabled := some false }).disabled
        = ((some false : Option Bool).getD false || (some true : Option Bool).getD false)
    ∧ (renderItem { selectedValue := "a", variant := Variant.primary, disabled := some true }
        { value := "a", disabled := some false }).ariaDisabled
        = ((some false : Option Bool).getD false || (some true : Option Bool).getD false) :=
  c7_item_computed_states
    { selectedValue := "a", variant := Variant.primary, disabled := some true }
    { value := "a", disabled := some false }

/-- C8: an uncontrolled group constructed without a default value starts
with the empty string selected, so no segment with a non-empty identifier
is initially active. -/
theorem c8_default_initial_value (p : SegmentedButtonProps)
    (item : SegmentedButtonItemProps)
    (hc : p.value = none)
    (hd : p.defaultValue = none)
    (hne : item.value ≠ "") :
    selectedValue p (initialUncontrolledValue p) = ""
    ∧ itemIsSelected (provideContext p (initialUncontrolledValue p)) item = false := by
  have hsel : selectedValue p (initialUncontrolledValue p) = "" := by
    simp [selectedValue, initialUncontrolledValue, hc, hd]
  refine ⟨hsel, ?_⟩
  simp only [itemIsSelected, provideContext, hsel, beq_eq_false_iff_ne, ne_eq]
  intro h
  exact hne h.symm

/-- Witness for C8: a group with no props and a segment "day"; initially the
selected value is "" and "day" is not active. -/
theorem c8_default_initial_value_witness :
    selectedValue {} (initialUncontrolledValue {}) = ""
    ∧ itemIsSelected (provideContext {} (initialUncontrolledValue {}))
        { value := "day" } = false :=
  c8_default_initial_value {} { value := "day" } (by decide) (by decide) (by decide)

/-- C9: the two exposed indicators agree: the assistive-technology checked
attribute is true exactly when the styling state attribute is "active",
and both hold exactly when the identifier equals the shared selected
value. -/
theorem c9_indicators_agree (ctx : SegmentedButtonContextType)
    (item : SegmentedButtonItemProps) :
    ((renderItem ctx item).ariaChecked = true
      ↔ (renderItem ctx item).dataState = "active")
    ∧ ((renderItem ctx item).ariaChecked = true
      ↔ item.value = ctx.selectedValue) := by
  refine ⟨?_, ariaChecked_iff ctx item⟩
  simp only [renderItem]
  by_cases h : itemIsSelected ctx item
  · simp [h]
  · simp [h]

/-- Witness for C9 at a concrete inactive item, discharging the
biconditionals by evaluation. -/
theorem c9_indicators_agree_witness :
    ((renderItem { selectedValue := "week", variant := Variant.secondary, disabled := none }
        { value := "month" }).ariaChecked = true
      ↔ (renderItem { selectedValue := "week", variant := Variant.secondary, disabled := none }
        { value := "month" }).dataState = "active")
    ∧ ((renderItem { selectedValue := "week", variant := Variant.secondary, disabled := none }
        { value := "month" }).ariaChecked = true
      ↔ ("month" : String) = "week") :=
  c9_indicators_agree
    { selectedValue := "week", variant := Variant.secondary, disabled := none }
    { value := "month" }

/-- C10: in an uncontrolled group, clicking the already-selected
non-disabled segment leaves the selected value unchanged (no toggle-off),
yet still calls the external notifier (when present) with that same
identifier. -/
theorem c10_reclick_idempotent (p : SegmentedButtonProps) (st : String)
    (item : SegmentedButtonItemProps)
    (hc : isControlled p = false)
    (hsel : itemIsSelected (provideContext p st) item = true)
    (hnd : itemIsDisabled (provideContext p st) item = false) :
    (clickSegment p st item).uncontrolledValue = st
    ∧ (p.hasOnValueChange = true →
        (clickSegment p st item).externalCalls = [item.value]) := by
  have hv : p.value = none := value_eq_none_of_not_controlled p hc
  have hst : item.value = st := by
    simp only [itemIsSelected, provideContext, selectedValue, hv, beq_iff_eq] at hsel
    exact hsel.symm
  constructor
  · unfold clickSegment handleClick
    rw [hnd]
    simp [handleValueChange, isControlled, hv, hst]
  · intro hn
    unfold clickSegment handleClick
    rw [hnd]
    simp [handleValueChange, hn]

/-- Witness for C10: uncontrolled group currently at "week" with a
notifier; clicking "week" keeps the value "week" and notifies ["week"]. -/
theorem c10_reclick_idempotent_witness :
    (clickSegment { hasOnValueChange := true } "week"
      { value := "week" }).uncontrolledValue = "week"
    ∧ (clickSegment { hasOnValueChange := true } "week"
        { value := "week" }).externalCalls = ["week"] :=
  ⟨(c10_reclick_idempotent { hasOnValueChange := true } "week" { value := "week" }
      (by decide) (by decide) (by decide)).1,
   (c10_reclick_idempotent { hasOnValueChange := true } "week" { value := "week" }
      (by decide) (by decide) (by decide)).2 (by decide)⟩

end SegmentedButtonSpec
